import Mathlib

/-!
Shallow embedding of the proposal-submission front end
(`src/src/utils/suiTransfer.js` and `src/src/Pages/AgentPage.jsx`).

The payment helper `handleSuiPayment` and the page handlers `handleSubmit`
and `handleImageUpload` are modelled as pure functions.  The external
collaborators (wallet signer, backend HTTP API, the user's click on the
confirmation toast) are modelled as inputs in an `Env` record; observable
side effects (toasts, the signer call, the HTTP POST, navigation) are
returned as an event list, and the React state (`formData`, `previewUrl`,
`loading`) as an explicit `PageState`.
-/

/-- `listLeads sub l` is `true` iff `sub` is a prefix of `l`. -/
def listLeads : List Char → List Char → Bool
  | [], _ => true
  | _ :: _, [] => false
  | a :: as, b :: bs => a == b && listLeads as bs

/-- `listContains sub l` is `true` iff `sub` occurs contiguously in `l`. -/
def listContains (sub : List Char) : List Char → Bool
  | [] => sub.isEmpty
  | c :: bs => listLeads sub (c :: bs) || listContains sub bs

/-- JavaScript `String.prototype.includes`: `jsIncludes s sub` is `true`
iff `sub` occurs as a contiguous substring of `s`. -/
def jsIncludes (s sub : String) : Bool :=
  listContains sub.data s.data

/-- JavaScript `String.prototype.toLowerCase` (ASCII range, which covers
every message the code matches on). -/
def jsToLower (s : String) : String :=
  ⟨s.data.map Char.toLower⟩

/-- JavaScript `String.prototype.startsWith`: `jsStartsWith s p` is `true`
iff `p` is a prefix of `s`. -/
def jsStartsWith (s p : String) : Bool :=
  listLeads p.data s.data

/-- `FUND_RECEIVER_ADDRESS` constant of `suiTransfer.js` (line 8). -/
def FUND_RECEIVER_ADDRESS : String :=
  "0xc4000ea0fd3244857575799ef4f8164c7b42d1c5bf840cfd54030f608b07556d"

/-- `SUI_AMOUNT` constant of `suiTransfer.js` (line 9): `BigInt(1_000_000_000)`. -/
def SUI_AMOUNT : Nat := 1000000000

/-- The request handed to `signAndExecuteTransactionBlock`: the built
transaction splits `splitAmount` from gas and transfers it to `transferTo`;
`showEvents` is the `options.showEvents` flag. -/
structure SignerRequest where
  splitAmount : Nat
  transferTo : String
  showEvents : Bool
  deriving Repr, DecidableEq

/-- Outcome of the wallet's `signAndExecuteTransactionBlock` call:
it either resolves with a response carrying a digest, or rejects with an
error whose message is a string. -/
inductive SignerResult where
  | ok (digest : String)
  | err (message : String)
  deriving Repr, DecidableEq

/-- The object returned by a successful `handleSuiPayment`
(`suiTransfer.js` lines 26-31). -/
structure Receipt where
  digest : String
  status : String
  amount : Nat
  receiver : String
  deriving Repr, DecidableEq

/-- Result of `handleSuiPayment`: the promise either rejects with an error
message or resolves with a receipt. -/
inductive PaymentOutcome where
  | threw (message : String)
  | returned (rec : Receipt)
  deriving Repr, DecidableEq

/-- `handleSuiPayment` of `suiTransfer.js`.  `signerPresent` models whether
`signAndExecuteTransactionBlock` is non-null; `res` is the behaviour of the
wallet on this call.  Returns the outcome together with the list of signer
invocations made (so that "exactly one attempt" is observable). -/
def handleSuiPayment (signerPresent : Bool) (res : SignerResult) :
    PaymentOutcome × List SignerRequest :=
  if signerPresent = false then
    (.threw "Wallet not connected", [])
  else
    match res with
    | .ok digest =>
        (.returned ⟨digest, "success", SUI_AMOUNT, FUND_RECEIVER_ADDRESS⟩,
         [⟨SUI_AMOUNT, FUND_RECEIVER_ADDRESS, true⟩])
    | .err msg =>
        if jsIncludes (jsToLower msg) "insufficient" then
          (.threw "Insufficient SUI balance", [⟨SUI_AMOUNT, FUND_RECEIVER_ADDRESS, true⟩])
        else if jsIncludes (jsToLower msg) "reject" then
          (.threw "User rejected the transaction", [⟨SUI_AMOUNT, FUND_RECEIVER_ADDRESS, true⟩])
        else
          (.threw msg, [⟨SUI_AMOUNT, FUND_RECEIVER_ADDRESS, true⟩])

/-- A selected file, as the image-upload handler observes it: `size` in
bytes, MIME `type`, and abstract `content` (what `FileReader.readAsDataURL`
turns into the preview data URL). -/
structure JsFile where
  size : Nat
  type : String
  content : String
  deriving Repr, DecidableEq

/-- The `formData` React state of `AgentPage` (lines 14-20). -/
structure AgentFormData where
  name : String
  twitter : String
  website : String
  description : String
  profilePicture : Option JsFile
  deriving Repr, DecidableEq

/-- The initial (and reset) form value of `AgentPage`: every text field
empty, no profile picture. -/
def initialFormData : AgentFormData :=
  ⟨"", "", "", "", none⟩

/-- The React state of `AgentPage` relevant to the workflow: the form, the
image preview data URL, and the `loading` flag. -/
structure PageState where
  formData : AgentFormData
  previewUrl : Option String
  loading : Bool
  deriving Repr, DecidableEq

/-- Outcome of the `axios.post` call to the backend. -/
inductive BackendResult where
  | ok
  | err (message : String)
  deriving Repr, DecidableEq

/-- The environment of one `handleSubmit` run: wallet state (`connected`,
`account`, whether `signAndExecuteTransactionBlock` is non-null), the
user's choice on the confirmation toast (`confirm`: Confirm or Cancel), the
wallet's behaviour if the signer is called, the backend's behaviour if the
POST is issued, and the configured `BACKEND_URL`. -/
structure Env where
  connected : Bool
  account : Option String
  signerPresent : Bool
  confirm : Bool
  signerResult : SignerResult
  backendResult : BackendResult
  backendUrl : String
  deriving Repr, DecidableEq

/-- The multipart payload built in `handleSubmit` (lines 120-129). -/
structure SubmissionRequest where
  name : String
  twitter : String
  website : String
  description : String
  creator_wallet : String
  payment_tx : String
  profilePicture : Option JsFile
  deriving Repr, DecidableEq

/-- Observable side effects of the handlers, in program order. -/
inductive Event where
  | toastError (msg : String)
  | toastLoading (msg : String)
  | toastSuccess (msg : String)
  | signerCall (req : SignerRequest)
  | httpPost (url : String) (req : SubmissionRequest)
  | navigate (path : String)
  deriving Repr, DecidableEq

/-- The non-Idle phases of the submission workflow, entered in order once
validation passes. -/
inductive Phase where
  | awaitingConfirmation
  | processingPayment
  | submittingProposal
  deriving Repr, DecidableEq

/-- Result of one `handleSubmit` run: the final React state, the event
list, and the sequence of non-Idle phases the run passed through, each
paired with the value of the `loading` flag while that phase was active. -/
structure RunResult where
  finalState : PageState
  events : List Event
  phases : List (Phase × Bool)
  deriving Repr, DecidableEq

/-- The `catch` block of `handleSubmit` (lines 151-161): maps the caught
error's message to the toast shown.  The empty message falls back to the
generic text because `error.message || ...` treats `""` as falsy. -/
def classifyCatch (msg : String) : String :=
  if jsIncludes msg "Payment cancelled" then "Payment cancelled by user"
  else if jsIncludes msg "User rejected" then "Transaction rejected by user"
  else if jsIncludes msg "Insufficient" then "Insufficient SUI balance"
  else if msg = "" then "Transaction failed. Please try again."
  else msg

/-- The three early-return guards of `handleSubmit` (lines 54-67), run in
order: wallet connected with an account, signer capability present,
required fields non-empty.  Returns the validation toast when a guard
fires.  All three are `ValidationError`s in the spec's taxonomy. -/
def validationError (env : Env) (fd : AgentFormData) : Option String :=
  if env.connected = false ∨ env.account = none then
    some "Please connect your wallet first!"
  else if env.signerPresent = false then
    some "Wallet connection not initialized properly"
  else if fd.name = "" ∨ fd.twitter = "" ∨ fd.description = "" then
    some "Please fill in all required fields (Name, Twitter, Description)"
  else
    none

/-- `handleSubmit` of `AgentPage.jsx` (lines 51-165) as one run over `Env`
and the current `PageState`.  Early validation returns change nothing; a
passing validation sets `loading`, walks the confirmation / payment /
submission steps, and the `finally` clears `loading` on every path. -/
def handleSubmit (env : Env) (st : PageState) : RunResult :=
  match validationError env st.formData with
  | some m => ⟨st, [.toastError m], []⟩
  | none =>
    if env.confirm = false then
      ⟨{ st with loading := false },
       [.toastLoading "Awaiting confirmation...", .toastError "Payment cancelled",
        .toastError (classifyCatch "Payment cancelled")],
       [(Phase.awaitingConfirmation, true)]⟩
    else
      match handleSuiPayment env.signerPresent env.signerResult with
      | (.threw msg, calls) =>
        ⟨{ st with loading := false },
         [.toastLoading "Awaiting confirmation...", .toastSuccess "Payment confirmed!",
          .toastLoading "Processing payment..."] ++ calls.map Event.signerCall ++
         [.toastError (classifyCatch msg)],
         [(Phase.awaitingConfirmation, true), (Phase.processingPayment, true)]⟩
      | (.returned rec, calls) =>
        if rec.status = "success" then
          let req : SubmissionRequest :=
            ⟨st.formData.name, st.formData.twitter, st.formData.website,
             st.formData.description, env.account.getD "", rec.digest,
             st.formData.profilePicture⟩
          match env.backendResult with
          | .ok =>
            ⟨⟨initialFormData, none, false⟩,
             [.toastLoading "Awaiting confirmation...", .toastSuccess "Payment confirmed!",
              .toastLoading "Processing payment..."] ++ calls.map Event.signerCall ++
             [.toastSuccess "Payment successful!", .toastLoading "Submitting proposal...",
              .httpPost (env.backendUrl ++ "/api/proposals") req,
              .toastSuccess "Proposal submitted successfully!", .navigate "/"],
             [(Phase.awaitingConfirmation, true), (Phase.processingPayment, true),
              (Phase.submittingProposal, true)]⟩
          | .err m =>
            ⟨{ st with loading := false },
             [.toastLoading "Awaiting confirmation...", .toastSuccess "Payment confirmed!",
              .toastLoading "Processing payment..."] ++ calls.map Event.signerCall ++
             [.toastSuccess "Payment successful!", .toastLoading "Submitting proposal...",
              .httpPost (env.backendUrl ++ "/api/proposals") req,
              .toastError (classifyCatch m)],
             [(Phase.awaitingConfirmation, true), (Phase.processingPayment, true),
              (Phase.submittingProposal, true)]⟩
        else
          ⟨{ st with loading := false },
           [.toastLoading "Awaiting confirmation...", .toastSuccess "Payment confirmed!",
            .toastLoading "Processing payment..."] ++ calls.map Event.signerCall,
           [(Phase.awaitingConfirmation, true), (Phase.processingPayment, true)]⟩

/-- `handleImageUpload` of `AgentPage.jsx` (lines 29-49): `file` is
`e.target.files[0]` (possibly absent).  Oversized or non-image files are
rejected with a toast and nothing changes; otherwise the file is attached
and the preview set from the reader result. -/
def handleImageUpload (file : Option JsFile) (st : PageState) :
    PageState × List Event :=
  match file with
  | none => (st, [])
  | some f =>
    if f.size > 5 * 1024 * 1024 then
      (st, [.toastError "Image size should be less than 5MB"])
    else if jsStartsWith f.type "image/" = false then
      (st, [.toastError "Please upload an image file"])
    else
      ({ st with
          formData := { st.formData with profilePicture := some f },
          previewUrl := some f.content },
       [])

/-- The `disabled` expression of the submit button (line 244):
`loading || !connected`. -/
def submitDisabled (loading connected : Bool) : Bool :=
  loading || !connected

/-- Recognizer for navigation events. -/
def isNavigate : Event → Bool
  | .navigate _ => true
  | _ => false

/-- Recognizer for wallet-signing events. -/
def isSignerCall : Event → Bool
  | .signerCall _ => true
  | _ => false

/-- Recognizer for backend POST events. -/
def isHttpPost : Event → Bool
  | .httpPost _ _ => true
  | _ => false

/-- C2: classification of errors thrown by the signer call inside
`handleSuiPayment` (`suiTransfer.js` lines 32-41): a message containing
"insufficient" (any case) fails as "Insufficient SUI balance" — this test
is applied first; otherwise a message containing "reject" (any case) fails
as "User rejected the transaction"; otherwise the original error is
propagated unchanged. -/
theorem payment_error_classification (msg : String) :
    (jsIncludes (jsToLower msg) "insufficient" = true →
      (handleSuiPayment true (.err msg)).1 = .threw "Insufficient SUI balance") ∧
    (jsIncludes (jsToLower msg) "insufficient" = false →
      jsIncludes (jsToLower msg) "reject" = true →
      (handleSuiPayment true (.err msg)).1 = .threw "User rejected the transaction") ∧
    (jsIncludes (jsToLower msg) "insufficient" = false →
      jsIncludes (jsToLower msg) "reject" = false →
      (handleSuiPayment true (.err msg)).1 = .threw msg) := by
  refine ⟨fun h1 => ?_, fun h1 h2 => ?_, fun h1 h2 => ?_⟩ <;>
    simp [handleSuiPayment, h1] <;> simp [h2]

/-- Witness for C2 at concrete messages: "INSUFFICIENT gas to reject" is
classified as insufficient funds (the "insufficient" test fires first even
though "reject" also occurs), "user Rejected it" as user-rejected, and
"network down" is propagated unchanged. -/
theorem payment_error_classification_witness :
    (handleSuiPayment true (.err "INSUFFICIENT gas to reject")).1 =
        .threw "Insufficient SUI balance" ∧
    (handleSuiPayment true (.err "user Rejected it")).1 =
        .threw "User rejected the transaction" ∧
    (handleSuiPayment true (.err "network down")).1 = .threw "network down" :=
  ⟨(payment_error_classification "INSUFFICIENT gas to reject").1 (by decide),
   (payment_error_classification "user Rejected it").2.1 (by decide) (by decide),
   (payment_error_classification "network down").2.2 (by decide) (by decide)⟩

/-- C8: when the signer resolves, `handleSuiPayment` returns a receipt
carrying the response's digest, the fixed amount of exactly 1,000,000,000
minor units and the constant receiver address, and makes exactly one signer
call, with `showEvents` requested (`suiTransfer.js` lines 8-31). -/
theorem payment_success_receipt (digest : String) :
    handleSuiPayment true (.ok digest) =
      (.returned ⟨digest, "success", 1000000000, FUND_RECEIVER_ADDRESS⟩,
       [⟨1000000000, FUND_RECEIVER_ADDRESS, true⟩]) := by
  simp [handleSuiPayment, SUI_AMOUNT]

theorem validationError_none_iff (env : Env) (fd : AgentFormData) :
    validationError env fd = none ↔
      env.connected = true ∧ env.account ≠ none ∧ env.signerPresent = true ∧
      fd.name ≠ "" ∧ fd.twitter ≠ "" ∧ fd.description ≠ "" := by
  unfold validationError
  constructor
  · intro h
    by_cases h1 : env.connected = false ∨ env.account = none
    · simp [h1] at h
    · by_cases h2 : env.signerPresent = false
      · simp [h1, h2] at h
      · by_cases h3 : fd.name = "" ∨ fd.twitter = "" ∨ fd.description = ""
        · simp [h1, h2, h3] at h
        · push_neg at h1 h3
          simp only [Bool.not_eq_false] at h1 h2
          exact ⟨h1.1, h1.2, h2, h3.1, h3.2.1, h3.2.2⟩
  · rintro ⟨h1, h2, h3, h4, h5, h6⟩
    simp [h1, h2, h3, h4, h5, h6]

/-- C3: when `name`, `twitter` or `description` is the empty string,
`handleSubmit` reports a (validation) error toast and returns before the
confirmation prompt: the run emits exactly one toast — so no signer call
and no HTTP call — the state (form, preview, loading) is returned
unchanged, and no non-Idle phase is entered (`AgentPage.jsx` lines 54-67). -/
theorem missing_field_blocks_submission (env : Env) (st : PageState)
    (h : st.formData.name = "" ∨ st.formData.twitter = "" ∨
         st.formData.description = "") :
    ∃ m, handleSubmit env st = ⟨st, [Event.toastError m], []⟩ := by
  have hv : ∃ m, validationError env st.formData = some m := by
    unfold validationError
    by_cases h1 : env.connected = false ∨ env.account = none
    · exact ⟨"Please connect your wallet first!", by simp [h1]⟩
    · by_cases h2 : env.signerPresent = false
      · exact ⟨"Wallet connection not initialized properly", by simp [h1, h2]⟩
      · exact ⟨"Please fill in all required fields (Name, Twitter, Description)",
          by simp [h1, h2, h]⟩
  obtain ⟨m, hm⟩ := hv
  exact ⟨m, by simp [handleSubmit, hm]⟩

/-- Witness for C3: a draft with an empty name is rejected with a single
error toast and nothing else happens. -/
theorem missing_field_blocks_submission_witness :
    ∃ m, handleSubmit ⟨true, some "0xsender", true, true, .ok "0xabc", .ok, "http://b"⟩
        ⟨⟨"", "@bot", "", "desc", none⟩, none, false⟩ =
      ⟨⟨⟨"", "@bot", "", "desc", none⟩, none, false⟩, [Event.toastError m], []⟩ :=
  missing_field_blocks_submission
    ⟨true, some "0xsender", true, true, .ok "0xabc", .ok, "http://b"⟩
    ⟨⟨"", "@bot", "", "desc", none⟩, none, false⟩ (Or.inl rfl)

/-- C7: `handleImageUpload` attaches the file and sets the preview exactly
when the file is at most 5 MiB and its MIME type begins with `image/`;
otherwise it reports an error toast and leaves the state — in particular
`profilePicture` and the preview — unchanged (`AgentPage.jsx` lines 29-49). -/
theorem image_upload_guard (f : JsFile) (st : PageState) :
    (f.size ≤ 5 * 1024 * 1024 → jsStartsWith f.type "image/" = true →
      handleImageUpload (some f) st =
        ({ st with
            formData := { st.formData with profilePicture := some f },
            previewUrl := some f.content }, [])) ∧
    (f.size > 5 * 1024 * 1024 ∨ jsStartsWith f.type "image/" = false →
      ∃ m, handleImageUpload (some f) st = (st, [Event.toastError m])) := by
  constructor
  · intro hs ht
    have hs' : ¬ f.size > 5 * 1024 * 1024 := by omega
    simp [handleImageUpload, hs', ht]
  · intro h
    rcases h with h | h
    · exact ⟨"Image size should be less than 5MB", by simp [handleImageUpload, h]⟩
    · by_cases hs : f.size > 5 * 1024 * 1024
      · exact ⟨"Image size should be less than 5MB", by simp [handleImageUpload, hs]⟩
      · exact ⟨"Please upload an image file", by simp [handleImageUpload, hs, h]⟩

/-- Witness for C7: a 1-byte `image/png` file is attached and previewed; a
6,000,000-byte file is rejected with a toast and the state is unchanged. -/
theorem image_upload_guard_witness :
    handleImageUpload (some ⟨1, "image/png", "DATA"⟩)
        ⟨initialFormData, none, false⟩ =
      (⟨⟨"", "", "", "", some ⟨1, "image/png", "DATA"⟩⟩, some "DATA", false⟩, []) ∧
    ∃ m, handleImageUpload (some ⟨6000000, "image/png", "DATA"⟩)
        ⟨initialFormData, none, false⟩ =
      (⟨initialFormData, none, false⟩, [Event.toastError m]) :=
  ⟨(image_upload_guard ⟨1, "image/png", "DATA"⟩ ⟨initialFormData, none, false⟩).1
      (by decide) (by decide),
   (image_upload_guard ⟨6000000, "image/png", "DATA"⟩ ⟨initialFormData, none, false⟩).2
      (Or.inl (by decide))⟩

/-- C6: when the user chooses Cancel at the confirmation prompt (after
validation passed), no wallet-signing call and no backend call is issued,
the failure is classified and reported as payment-cancelled, and the form
and preview retain their entered values (`AgentPage.jsx` lines 88-107 and
151-154). -/
theorem cancel_issues_no_calls (env : Env) (st : PageState)
    (hv : validationError env st.formData = none) (hc : env.confirm = false) :
    ((handleSubmit env st).events.filter isSignerCall) = [] ∧
    ((handleSubmit env st).events.filter isHttpPost) = [] ∧
    Event.toastError "Payment cancelled by user" ∈ (handleSubmit env st).events ∧
    (handleSubmit env st).finalState.formData = st.formData ∧
    (handleSubmit env st).finalState.previewUrl = st.previewUrl := by
  have hcc : classifyCatch "Payment cancelled" = "Payment cancelled by user" := by decide
  have he : handleSubmit env st =
      ⟨{ st with loading := false },
       [.toastLoading "Awaiting confirmation...", .toastError "Payment cancelled",
        .toastError "Payment cancelled by user"],
       [(Phase.awaitingConfirmation, true)]⟩ := by
    simp [handleSubmit, hv, hc, hcc]
  rw [he]
  exact ⟨by simp [isSignerCall], by simp [isHttpPost], by simp, rfl, rfl⟩

/-- Witness for C6: with a filled form and Cancel chosen, the run makes no
signer call and no POST, reports "Payment cancelled by user", and keeps the
form. -/
theorem cancel_issues_no_calls_witness :
    ((handleSubmit ⟨true, some "0xsender", true, false, .ok "0xabc", .ok, "http://b"⟩
        ⟨⟨"Bot", "@bot", "", "desc", none⟩, none, false⟩).events.filter isSignerCall) = [] ∧
    ((handleSubmit ⟨true, some "0xsender", true, false, .ok "0xabc", .ok, "http://b"⟩
        ⟨⟨"Bot", "@bot", "", "desc", none⟩, none, false⟩).events.filter isHttpPost) = [] ∧
    Event.toastError "Payment cancelled by user" ∈
      (handleSubmit ⟨true, some "0xsender", true, false, .ok "0xabc", .ok, "http://b"⟩
        ⟨⟨"Bot", "@bot", "", "desc", none⟩, none, false⟩).events ∧
    (handleSubmit ⟨true, some "0xsender", true, false, .ok "0xabc", .ok, "http://b"⟩
        ⟨⟨"Bot", "@bot", "", "desc", none⟩, none, false⟩).finalState.formData =
      ⟨"Bot", "@bot", "", "desc", none⟩ ∧
    (handleSubmit ⟨true, some "0xsender", true, false, .ok "0xabc", .ok, "http://b"⟩
        ⟨⟨"Bot", "@bot", "", "desc", none⟩, none, false⟩).finalState.previewUrl = none :=
  cancel_issues_no_calls
    ⟨true, some "0xsender", true, false, .ok "0xabc", .ok, "http://b"⟩
    ⟨⟨"Bot", "@bot", "", "desc", none⟩, none, false⟩ (by decide) rfl

/-- C4: a confirmed attempt in which the signer resolves and the backend
POST succeeds resets the form to its initial empty state (preview cleared),
navigates to the landing view exactly once, and ends with `loading = false`
(`AgentPage.jsx` lines 131-150 and 162-164). -/
theorem success_resets_form_and_navigates (env : Env) (st : PageState) (d : String)
    (hv : validationError env st.formData = none) (hc : env.confirm = true)
    (hr : env.signerResult = .ok d) (hb : env.backendResult = .ok) :
    (handleSubmit env st).finalState = ⟨initialFormData, none, false⟩ ∧
    ((handleSubmit env st).events.filter isNavigate) = [Event.navigate "/"] := by
  have hsp : env.signerPresent = true :=
    ((validationError_none_iff env st.formData).mp hv).2.2.1
  simp [handleSubmit, hv, hc, hsp, hr, hb, handleSuiPayment, isNavigate]

/-- Witness for C4: the spec's example draft with a confirming user, a
resolving signer and a 200 backend ends reset, idle, with one navigation. -/
theorem success_resets_form_and_navigates_witness :
    (handleSubmit ⟨true, some "0xsender", true, true, .ok "0xabc", .ok, "http://b"⟩
        ⟨⟨"Bot", "@bot", "", "desc", none⟩, none, false⟩).finalState =
      ⟨initialFormData, none, false⟩ ∧
    ((handleSubmit ⟨true, some "0xsender", true, true, .ok "0xabc", .ok, "http://b"⟩
        ⟨⟨"Bot", "@bot", "", "desc", none⟩, none, false⟩).events.filter isNavigate) =
      [Event.navigate "/"] :=
  success_resets_form_and_navigates
    ⟨true, some "0xsender", true, true, .ok "0xabc", .ok, "http://b"⟩
    ⟨⟨"Bot", "@bot", "", "desc", none⟩, none, false⟩ "0xabc" (by decide) rfl rfl rfl

/-- C5: a confirmed attempt in which the signer resolves but the backend
POST fails ends with `loading = false`, keeps the entered form and preview,
made exactly one signer call and exactly one POST (nothing is re-attempted,
and the receipt is not kept anywhere in the final state), and reports the
failure with an error toast (`AgentPage.jsx` lines 151-164). -/
theorem backend_failure_is_terminal (env : Env) (st : PageState) (d m : String)
    (hv : validationError env st.formData = none) (hc : env.confirm = true)
    (hr : env.signerResult = .ok d) (hb : env.backendResult = .err m) :
    (handleSubmit env st).finalState.loading = false ∧
    (handleSubmit env st).finalState.formData = st.formData ∧
    (handleSubmit env st).finalState.previewUrl = st.previewUrl ∧
    ((handleSubmit env st).events.filter isSignerCall).length = 1 ∧
    ((handleSubmit env st).events.filter isHttpPost).length = 1 ∧
    Event.toastError (classifyCatch m) ∈ (handleSubmit env st).events := by
  have hsp : env.signerPresent = true :=
    ((validationError_none_iff env st.formData).mp hv).2.2.1
  simp [handleSubmit, hv, hc, hsp, hr, hb, handleSuiPayment, isSignerCall, isHttpPost]

/-- Witness for C5: signer resolves, backend rejects with "500" — the run
ends idle with the form intact, one signer call, one POST, and an error
toast. -/
theorem backend_failure_is_terminal_witness :
    (handleSubmit ⟨true, some "0xsender", true, true, .ok "0xabc", .err "500", "http://b"⟩
        ⟨⟨"Bot", "@bot", "", "desc", none⟩, none, false⟩).finalState.loading = false ∧
    (handleSubmit ⟨true, some "0xsender", true, true, .ok "0xabc", .err "500", "http://b"⟩
        ⟨⟨"Bot", "@bot", "", "desc", none⟩, none, false⟩).finalState.formData =
      ⟨"Bot", "@bot", "", "desc", none⟩ ∧
    (handleSubmit ⟨true, some "0xsender", true, true, .ok "0xabc", .err "500", "http://b"⟩
        ⟨⟨"Bot", "@bot", "", "desc", none⟩, none, false⟩).finalState.previewUrl = none ∧
    ((handleSubmit ⟨true, some "0xsender", true, true, .ok "0xabc", .err "500", "http://b"⟩
        ⟨⟨"Bot", "@bot", "", "desc", none⟩, none, false⟩).events.filter isSignerCall).length
      = 1 ∧
    ((handleSubmit ⟨true, some "0xsender", true, true, .ok "0xabc", .err "500", "http://b"⟩
        ⟨⟨"Bot", "@bot", "", "desc", none⟩, none, false⟩).events.filter isHttpPost).length
      = 1 ∧
    Event.toastError (classifyCatch "500") ∈
      (handleSubmit ⟨true, some "0xsender", true, true, .ok "0xabc", .err "500", "http://b"⟩
        ⟨⟨"Bot", "@bot", "", "desc", none⟩, none, false⟩).events :=
  backend_failure_is_terminal
    ⟨true, some "0xsender", true, true, .ok "0xabc", .err "500", "http://b"⟩
    ⟨⟨"Bot", "@bot", "", "desc", none⟩, none, false⟩ "0xabc" "500"
    (by decide) rfl rfl rfl

/-- C9: in every run, the `loading` flag is `true` throughout every
non-Idle phase — so the submit button, disabled by `loading || !connected`,
is disabled and a second concurrent run cannot start — and on every
terminal path that left Idle the `finally` resets `loading` to `false`
(`AgentPage.jsx` lines 69, 162-164, 242-248). -/
theorem loading_guards_workflow (env : Env) (st : PageState) :
    (∀ pr ∈ (handleSubmit env st).phases,
        pr.2 = true ∧ submitDisabled pr.2 env.connected = true) ∧
    ((handleSubmit env st).phases ≠ [] →
        (handleSubmit env st).finalState.loading = false) := by
  unfold handleSubmit
  cases hval : validationError env st.formData with
  | some m => simp
  | none =>
    by_cases hc : env.confirm = false
    · simp [hc, submitDisabled]
    · rw [if_neg hc]
      cases hpay : handleSuiPayment env.signerPresent env.signerResult with
      | mk po calls =>
        cases po with
        | threw msg => simp [submitDisabled]
        | returned rec =>
          by_cases hs : rec.status = "success"
          · cases hb : env.backendResult with
            | ok => simp [hs, hb, submitDisabled]
            | err m2 => simp [hs, hb, submitDisabled]
          · simp [hs, submitDisabled]

/-- Witness for C9: on the concrete success run the workflow left Idle, and
the theorem yields `loading = false` at the end. -/
theorem loading_guards_workflow_witness :
    (handleSubmit ⟨true, some "0xsender", true, true, .ok "0xabc", .ok, "http://b"⟩
        ⟨⟨"Bot", "@bot", "", "desc", none⟩, none, false⟩).finalState.loading = false :=
  (loading_guards_workflow
    ⟨true, some "0xsender", true, true, .ok "0xabc", .ok, "http://b"⟩
    ⟨⟨"Bot", "@bot", "", "desc", none⟩, none, false⟩).2 (by decide)

theorem handleSuiPayment_returned_inv (sp : Bool) (res : SignerResult) (rec : Receipt)
    (h : (handleSuiPayment sp res).1 = .returned rec) :
    sp = true ∧ ∃ d, res = .ok d ∧
      rec = ⟨d, "success", SUI_AMOUNT, FUND_RECEIVER_ADDRESS⟩ := by
  cases sp with
  | false => simp [handleSuiPayment] at h
  | true =>
    cases res with
    | ok d =>
      simp [handleSuiPayment] at h
      exact ⟨rfl, d, rfl, by rw [← h]⟩
    | err msg =>
      refine absurd h ?_
      unfold handleSuiPayment
      by_cases h1 : jsIncludes (jsToLower msg) "insufficient" = true
      · simp [h1]
      · by_cases h2 : jsIncludes (jsToLower msg) "reject" = true
        · simp [h1, h2]
        · simp [h1, h2]

/-- C1: a submission POST is only ever issued after `handleSuiPayment` has
returned a receipt whose `status` is `"success"` for the current attempt:
any `httpPost` event in a `handleSubmit` run implies the payment call
returned such a receipt, and the posted `payment_tx` is that receipt's
digest (`AgentPage.jsx` lines 112-135). -/
theorem submission_only_after_payment_success (env : Env) (st : PageState)
    (u : String) (q : SubmissionRequest)
    (h : Event.httpPost u q ∈ (handleSubmit env st).events) :
    ∃ rec : Receipt,
      (handleSuiPayment env.signerPresent env.signerResult).1 = .returned rec ∧
      rec.status = "success" ∧ q.payment_tx = rec.digest := by
  unfold handleSubmit at h
  cases hval : validationError env st.formData with
  | some m =>
    simp only [hval] at h
    simp at h
  | none =>
    simp only [hval] at h
    by_cases hc : env.confirm = false
    · rw [if_pos hc] at h
      simp at h
    · rw [if_neg hc] at h
      cases hpay : handleSuiPayment env.signerPresent env.signerResult with
      | mk po calls =>
        cases po with
        | threw msg =>
          simp only [hpay] at h
          simp at h
        | returned rec =>
          simp only [hpay] at h
          by_cases hs : rec.status = "success"
          · rw [if_pos hs] at h
            cases hb : env.backendResult with
            | ok =>
              simp only [hb] at h
              simp at h
              exact ⟨rec, by simp [hpay], hs, by simp [h.2]⟩
            | err m2 =>
              simp only [hb] at h
              simp at h
              exact ⟨rec, by simp [hpay], hs, by simp [h.2]⟩
          · rw [if_neg hs] at h
            simp at h

/-- Witness for C1: on the concrete success run the POST event occurs, and
the theorem produces the successful receipt behind it. -/
theorem submission_only_after_payment_success_witness :
    ∃ rec : Receipt,
      (handleSuiPayment true (.ok "0xabc")).1 = .returned rec ∧
      rec.status = "success" ∧
      ("0xabc" : String) = rec.digest :=
  submission_only_after_payment_success
    ⟨true, some "0xsender", true, true, .ok "0xabc", .ok, "http://b"⟩
    ⟨⟨"Bot", "@bot", "", "desc", none⟩, none, false⟩
    "http://b/api/proposals" ⟨"Bot", "@bot", "", "desc", "0xsender", "0xabc", none⟩
    (by decide)

/-- C10: whenever `handleSuiPayment` returns without throwing, the
receipt's `status` is `"success"` (`suiTransfer.js` lines 26-31), so the
status guard in `handleSubmit` always passes for a returned payment and a
POST is issued: the implicit else path, which would end the attempt with no
submission and no notification, is unreachable
(`AgentPage.jsx` lines 112-150). -/
theorem payment_return_always_passes_guard (env : Env) (st : PageState) (rec : Receipt)
    (h : (handleSuiPayment env.signerPresent env.signerResult).1 = .returned rec) :
    rec.status = "success" ∧
    (validationError env st.formData = none → env.confirm = true →
      ∃ u q, Event.httpPost u q ∈ (handleSubmit env st).events) := by
  obtain ⟨hsp, d, hres, hrec⟩ := handleSuiPayment_returned_inv _ _ _ h
  constructor
  · rw [hrec]
  · intro hv hc
    refine ⟨env.backendUrl ++ "/api/proposals",
      ⟨st.formData.name, st.formData.twitter, st.formData.website, st.formData.description,
       env.account.getD "", d, st.formData.profilePicture⟩, ?_⟩
    cases hb : env.backendResult with
    | ok => simp [handleSubmit, hv, hc, hsp, hres, hb, handleSuiPayment]
    | err m => simp [handleSubmit, hv, hc, hsp, hres, hb, handleSuiPayment]

/-- Witness for C10: the concrete resolved payment yields a "success"
receipt and the concrete run issues the POST. -/
theorem payment_return_always_passes_guard_witness :
    (⟨"0xabc", "success", SUI_AMOUNT, FUND_RECEIVER_ADDRESS⟩ : Receipt).status =
      "success" ∧
    (validationError ⟨true, some "0xsender", true, true, .ok "0xabc", .ok, "http://b"⟩
        ⟨"Bot", "@bot", "", "desc", none⟩ = none →
      (⟨true, some "0xsender", true, true, .ok "0xabc", .ok,
        "http://b"⟩ : Env).confirm = true →
      ∃ u q, Event.httpPost u q ∈
        (handleSubmit ⟨true, some "0xsender", true, true, .ok "0xabc", .ok, "http://b"⟩
          ⟨⟨"Bot", "@bot", "", "desc", none⟩, none, false⟩).events) :=
  payment_return_always_passes_guard
    ⟨true, some "0xsender", true, true, .ok "0xabc", .ok, "http://b"⟩
    ⟨⟨"Bot", "@bot", "", "desc", none⟩, none, false⟩
    ⟨"0xabc", "success", SUI_AMOUNT, FUND_RECEIVER_ADDRESS⟩ (by decide)
